import Mathlib

/-!
Shallow embedding of the result-cache and outcome-classification core of the
lychee link checker: the `ErrorKind` taxonomy with its hand-written equality
and hash projections (lychee-lib/src/types/error.rs), the `Status` verdict
taxonomy with classification, display and icons (lychee-lib/src/types/status.rs),
and the result cache with its persistence entry points (lychee-bin/src/cache.rs).

External leaf types (paths, URIs, status codes, library error payloads) are
embedded by the data the source actually observes of them: `PathBuf` and `Uri`
as their string form, `http::StatusCode` as a `Nat`, `io::Error` as its
categorical kind plus message, and so on.
-/

/-- Categorical kind of a std `io::Error` (`std::io::ErrorKind`); only the
categories matter to the embedded code, which compares and hashes by kind. -/
inductive IoErrKind where
  | notFound
  | permissionDenied
  | timedOut
  | interrupted
  | other
  deriving DecidableEq, Repr

/-- A std `io::Error`: its categorical kind and its display message.
For an error built by `io::Error::new(kind, msg)` the display is `msg`. -/
structure IoErr where
  kind : IoErrKind
  msg : String
  deriving DecidableEq, Repr

/-- A `std::str::Utf8Error`: position data observed via its display string. -/
structure Utf8Err where
  validUpTo : Nat
  errorLen : Option Nat
  deriving DecidableEq, Repr

/-- Display of `Utf8Error`, from std. -/
def utf8ErrToString (e : Utf8Err) : String :=
  match e.errorLen with
  | some l =>
      "invalid utf-8 sequence of " ++ toString l ++ " bytes from index "
        ++ toString e.validUpTo
  | none => "incomplete utf-8 byte sequence from index " ++ toString e.validUpTo

/-- The unit variants of `url::ParseError` (a C-like enum with derived
equality); only equality and debug naming are observed. -/
inductive UrlParseErr where
  | emptyHost
  | invalidPort
  | invalidIpv4Address
  | invalidIpv6Address
  | invalidDomainCharacter
  | relativeUrlWithoutBase
  | overflow
  deriving DecidableEq, Repr

/-- Debug name of a `url::ParseError` variant. -/
def urlParseErrDebug : UrlParseErr → String
  | .emptyHost => "EmptyHost"
  | .invalidPort => "InvalidPort"
  | .invalidIpv4Address => "InvalidIpv4Address"
  | .invalidIpv6Address => "InvalidIpv6Address"
  | .invalidDomainCharacter => "InvalidDomainCharacter"
  | .relativeUrlWithoutBase => "RelativeUrlWithoutBase"
  | .overflow => "Overflow"

/-- Variants of `fast_chemail::ParseError` (derives equality). -/
inductive EmailParseErr where
  | missingAtSign
  | invalidCharacter
  | localTooLong
  | domainTooLong
  deriving DecidableEq, Repr

/-- A `glob::PatternError`: position and static message, with derived fields
observed both directly (equality) and through display (hash). -/
structure PatternErr where
  pos : Nat
  msg : String
  deriving DecidableEq, Repr

/-- Display of `glob::PatternError`, a function of its two fields. -/
def patternErrToString (e : PatternErr) : String :=
  "Pattern syntax error near position " ++ toString e.pos ++ ": " ++ e.msg

/-- The `ErrorKind` enum of lychee-lib/src/types/error.rs. Payload embeddings:
`Option<PathBuf>` as `Option String`, `Arc<io::Error>` as `IoErr`,
`StatusCode` as `Nat`, `Uri` and `PathBuf` as `String`,
`Arc<http::header::InvalidHeaderValue>` as `Unit` (the Rust type exposes no
data and displays a constant), `Arc<jwalk::Error>` by its display string,
`Arc<tokio SendError<InputContent>>` by the carried content (its display is
the constant "channel closed"). -/
inductive ErrorKind where
  | io : Option String → IoErr → ErrorKind
  | encoding : Utf8Err → ErrorKind
  | client : String → Option Nat → ErrorKind
  | github : String → ErrorKind
  | parse : String → UrlParseErr × Option EmailParseErr → ErrorKind
  | urlFromPath : String → ErrorKind
  | fileNotFound : String → ErrorKind
  | fileUriNotFound : String → ErrorKind
  | mail : String → ErrorKind
  | header : Unit → ErrorKind
  | base : String → String → ErrorKind
  | dirTraversal : String → ErrorKind
  | glob : PatternErr → ErrorKind
  | missingGitHubToken : ErrorKind
  | insecureURL : String → ErrorKind
  | channel : String → ErrorKind
  | missingHost : ErrorKind
  | invalidURI : String → ErrorKind
  deriving DecidableEq, Repr

/-- The hand-written `impl PartialEq for ErrorKind`, arm for arm, including
the final catch-all arm returning `false`. -/
def ErrorKind.beq : ErrorKind → ErrorKind → Bool
  | .io p1 e1, .io p2 e2 => decide (p1 = p2) && decide (e1.kind = e2.kind)
  | .client e1 s1, .client e2 s2 => decide (e1 = e2) && decide (s1 = s2)
  | .github e1, .github e2 => decide (e1 = e2)
  | .parse s1 e1, .parse s2 e2 => decide (s1 = s2) && decide (e1 = e2)
  | .mail u1, .mail u2 => decide (u1 = u2)
  | .insecureURL u1, .insecureURL u2 => decide (u1 = u2)
  | .glob e1, .glob e2 => decide (e1.msg = e2.msg) && decide (e1.pos = e2.pos)
  | .header _, .header _ => true
  | .missingGitHubToken, .missingGitHubToken => true
  | _, _ => false

/-- The data fed to the hasher by one `ErrorKind` value: shapes of the tuples
written by the arms of `impl Hash for ErrorKind`. `parseTy` carries the
`TypeId` of the `Parse` payload tuple, a value constant across all `Parse`
instances (every payload has the same static type). -/
inductive HashInput where
  | pathKind : Option String → IoErrKind → HashInput
  | strStatus : String → Option Nat → HashInput
  | str : String → HashInput
  | parseTy : String → Unit → HashInput
  | strPair : String → String → HashInput
  | discr : Nat → HashInput
  deriving DecidableEq, Repr

/-- The hand-written `impl Hash for ErrorKind`, arm for arm: the value each
arm feeds to the hasher. The display of `InvalidHeaderValue` is the constant
"failed to parse header value" and of a `SendError` the constant
"channel closed". Discriminants use declaration order of the variants. -/
def ErrorKind.hashInput : ErrorKind → HashInput
  | .io p e => .pathKind p e.kind
  | .client err status => .strStatus err status
  | .github e => .str e
  | .dirTraversal e => .str e
  | .fileNotFound p => .str p
  | .parse s _ => .parseTy s ()
  | .invalidURI u => .str u
  | .urlFromPath p => .str p
  | .encoding e => .str (utf8ErrToString e)
  | .fileUriNotFound u => .str u
  | .mail u => .str u
  | .insecureURL u => .str u
  | .base b e => .strPair b e
  | .header _ => .str "failed to parse header value"
  | .glob e => .str (patternErrToString e)
  | .channel _ => .str "channel closed"
  | .missingGitHubToken => .discr 13
  | .missingHost => .discr 16

/-- The serializer `io_error_serialize` of error.rs: writes only the display
string of the io error, dropping the path and the categorical kind. -/
def ioErrorSerialize (_path : Option String) (e : IoErr) : String :=
  e.msg

/-- The deserializer `io_error_deserialize` of error.rs: always rebuilds the
pair as no path plus `io::Error::new(ErrorKind::Other, msg)`. -/
def ioErrorDeserialize (msg : String) : Option String × IoErr :=
  (none, ⟨IoErrKind.other, msg⟩)

/-- Display of an `ErrorKind`, from the thiserror format attributes in
error.rs. The path of the `Io` variant renders as its string, with
"<MALFORMED PATH>" when absent. -/
def ErrorKind.display : ErrorKind → String
  | .io p e =>
      "Failed to read from path: `" ++ p.getD "<MALFORMED PATH>"
        ++ "`, reason: " ++ e.msg
  | .encoding e =>
      "Attempted to interpret an invalid sequence of bytes as a string: "
        ++ utf8ErrToString e
  | .client err _ =>
      "Network error while trying to connect to an endpoint: " ++ err
  | .github m =>
      "Network error when trying to connect to an endpoint via hubcaps: " ++ m
  | .parse s (u, m) =>
      "Cannot parse " ++ s
        ++ " as website url, file path, or mail address: ("
        ++ urlParseErrDebug u ++ ", "
        ++ (match m with
            | some em => "Some(" ++ reprStr em ++ ")"
            | none => "None")
        ++ ")"
  | .urlFromPath p => "Invalid path to URL conversion: " ++ p
  | .fileNotFound p => "Cannot find local file " ++ p
  | .fileUriNotFound u => "Cannot find file " ++ u
  | .mail u => "Unreachable mail address: " ++ u
  | .header _ => "Header could not be parsed: failed to parse header value"
  | .base b e => "Error with base dir `" ++ b ++ "` : " ++ e
  | .dirTraversal e => "Cannot traverse input directory: " ++ e
  | .glob _ => "UNIX glob pattern is invalid"
  | .missingGitHubToken =>
      "GitHub token not specified. To check GitHub links reliably, use `--github-token` flag / `GITHUB_TOKEN` env var."
  | .insecureURL u =>
      "This URI is available in HTTPS protocol, but HTTP is provided, use '"
        ++ u ++ "' instead"
  | .channel _ => "Cannot send/receive message from channel: channel closed"
  | .missingHost => "URL is missing a host"
  | .invalidURI u => "The given URI is invalid: " ++ u

/-- The `Status` enum of lychee-lib/src/types/status.rs, status codes as
`Nat` (the `Box`/`Arc` indirections of the source are transparent here). -/
inductive Status where
  | ok : Nat → Status
  | error : ErrorKind → Status
  | timeout : Option Nat → Status
  | redirected : Nat → Status
  | unknownStatusCode : Nat → Status
  | excluded : Status
  | unsupported : ErrorKind → Status
  deriving DecidableEq, Repr

/-- ICON_OK of status.rs. -/
def ICON_OK : String := "✔"

/-- ICON_REDIRECTED of status.rs. -/
def ICON_REDIRECTED : String := "⇄"

/-- ICON_EXCLUDED of status.rs. -/
def ICON_EXCLUDED : String := "?"

/-- ICON_UNSUPPORTED of status.rs (the source uses the same glyph as
ICON_EXCLUDED, under a different name for explicitness). -/
def ICON_UNSUPPORTED : String := "?"

/-- ICON_UNKNOWN of status.rs. -/
def ICON_UNKNOWN : String := "?"

/-- ICON_ERROR of status.rs. -/
def ICON_ERROR : String := "✗"

/-- ICON_TIMEOUT of status.rs. -/
def ICON_TIMEOUT : String := "⧖"

/-- `Status::icon` of status.rs. -/
def Status.icon : Status → String
  | .ok _ => ICON_OK
  | .redirected _ => ICON_REDIRECTED
  | .unknownStatusCode _ => ICON_UNKNOWN
  | .excluded => ICON_EXCLUDED
  | .error _ => ICON_ERROR
  | .timeout _ => ICON_TIMEOUT
  | .unsupported _ => ICON_UNSUPPORTED

/-- Index of the active tag of a `Status` value (which of the seven verdict
tags it is). -/
def Status.tagIdx : Status → Nat
  | .ok _ => 0
  | .error _ => 1
  | .timeout _ => 2
  | .redirected _ => 3
  | .unknownStatusCode _ => 4
  | .excluded => 5
  | .unsupported _ => 6

/-- Canonical reason phrase of an HTTP status code as rendered by the http
crate's `Display for StatusCode` (a fixed table; codes outside it display
"<unknown status code>"). -/
def canonicalReason (c : Nat) : String :=
  if c = 200 then "OK"
  else if c = 301 then "Moved Permanently"
  else if c = 302 then "Found"
  else if c = 308 then "Permanent Redirect"
  else if c = 400 then "Bad Request"
  else if c = 403 then "Forbidden"
  else if c = 404 then "Not Found"
  else if c = 429 then "Too Many Requests"
  else if c = 500 then "Internal Server Error"
  else if c = 503 then "Service Unavailable"
  else "<unknown status code>"

/-- Display of an `http::StatusCode`: the numeric code, a space, and the
canonical reason phrase. -/
def statusCodeDisplay (c : Nat) : String :=
  toString c ++ " " ++ canonicalReason c

/-- The `impl Display for Status` of status.rs, arm for arm. -/
def Status.display : Status → String
  | .ok c => "OK (" ++ statusCodeDisplay c ++ ")"
  | .redirected c => "Redirect (" ++ statusCodeDisplay c ++ ")"
  | .unknownStatusCode c => "Unknown status: " ++ statusCodeDisplay c
  | .excluded => "Excluded"
  | .timeout (some c) => "Timeout: " ++ statusCodeDisplay c
  | .timeout none => "Timeout"
  | .unsupported e => "Unsupported: " ++ e.display
  | .error e => "Failed: " ++ e.display

/-- A `reqwest::Error` as observed by status.rs: its timeout flag, its
builder flag, its optional attached status code, and its display message. -/
structure ReqwestErr where
  isTimeout : Bool
  isBuilder : Bool
  status : Option Nat
  msg : String
  deriving DecidableEq, Repr

/-- The `impl From<reqwest::Error> for Status` of status.rs. -/
def Status.fromReqwestErr (e : ReqwestErr) : Status :=
  if e.isTimeout then .timeout e.status
  else if e.isBuilder then .unsupported (.client e.msg e.status)
  else .error (.client e.msg e.status)

/-- A `reqwest::Response` as observed by `Status::new`: its status code.
`error_for_status_ref` is a judgment reqwest derives from that code. -/
structure Response where
  status : Nat
  deriving DecidableEq, Repr

/-- The error reqwest's `error_for_status_ref` produces for a client- or
server-error status code: not a timeout, not a builder error, carrying the
offending code and a message derived from it. -/
def reqwestStatusErr (code : Nat) : ReqwestErr :=
  ⟨false, false, some code, "HTTP status error (" ++ statusCodeDisplay code ++ ")"⟩

/-- Success range test of `http::StatusCode::is_success` (200..=299). -/
def isSuccessCode (c : Nat) : Bool := 200 ≤ c && c ≤ 299

/-- Redirection range test of `http::StatusCode::is_redirection`
(300..=399). -/
def isRedirectionCode (c : Nat) : Bool := 300 ≤ c && c ≤ 399

/-- Client/server error range test used by reqwest's `error_for_status_ref`
(400..=599): in that range the call returns the error, otherwise Ok. -/
def isErrorForStatusCode (c : Nat) : Bool := 400 ≤ c && c ≤ 599

/-- `Status::new` of status.rs: first the accepted-codes test
(`accepted.map(|a| a.contains(&code)) == Some(true)`), else the match on
`error_for_status_ref` with its guards in source order. The accepted set is
embedded as a list, membership per `HashSet::contains`. -/
def Status.new (response : Response) (accepted : Option (List Nat)) : Status :=
  let code := response.status
  if accepted.map (fun a => a.contains code) = some true then
    .ok code
  else if isErrorForStatusCode code then
    Status.fromReqwestErr (reqwestStatusErr code)
  else if isSuccessCode code then .ok code
  else if isRedirectionCode code then .redirected code
  else .unknownStatusCode code

/-- The result of running a fallible Rust entry point: a normal return, an
error returned to the caller (`anyhow::Result::Err`), or a panic unwinding
out of the function (`todo!`, `unwrap` on a failed parse, ...). -/
inductive RunResult (α : Type) where
  | ok : α → RunResult α
  | err : String → RunResult α
  | panicked : RunResult α
  deriving DecidableEq, Repr

/-- The `Cache` of lychee-bin/src/cache.rs, `DashMap<String, Status>`.

Modelled from the spec: the map behind the cache is the external `DashMap`
crate, whose code is not part of this repository; it is embedded as a finite
association map (most recent insertion first) realizing the sequential
lookup/record contract the spec states for the cache. -/
def Cache : Type := List (String × Status)

/-- Lookup of a cache entry (`DashMap::get`).

Modelled from the spec: `lookup(identifier)` returns the stored verdict for
the identifier, if any. -/
def cacheLookup (m : Cache) (i : String) : Option Status :=
  (m.find? (fun p => decide (p.1 = i))).map Prod.snd

/-- Insert-or-overwrite of a cache entry (`DashMap::insert`).

Modelled from the spec: `record(identifier, verdict)` stores the verdict and
returns whatever verdict, if any, was previously stored for that
identifier. -/
def cacheRecord (m : Cache) (i : String) (v : Status) : Option Status × Cache :=
  (cacheLookup m i, (i, v) :: m)

/-- `StoreExt::load` for `Cache` in lychee-bin/src/cache.rs: the entire body
is `todo!()`, which panics unconditionally before looking at the input, so
every call unwinds instead of returning `Ok` or `Err`. The input is the text
of the snapshot file read from the given path. -/
def cacheLoad (_file : String) : RunResult Cache :=
  RunResult.panicked

/-- `http::StatusCode::from_str`: accepts exactly three ASCII digits with a
nonzero leading digit (yielding a code in 100..=999), rejects everything
else. -/
def statusCodeFromStr (s : String) : Option Nat :=
  match s.toList with
  | [a, b, c] =>
      if a.isDigit && b.isDigit && c.isDigit && a ≠ '0' then
        some ((a.toNat - 48) * 100 + (b.toNat - 48) * 10 + (c.toNat - 48))
      else none
  | _ => none

/-- The `impl From<HttpStatusCodeRef> for http::StatusCode` of status.rs:
`StatusCode::from_str(&value.0).unwrap()` — returns the parsed code when the
stored string parses, and panics otherwise. -/
def statusCodeFromRef (s : String) : RunResult Nat :=
  match statusCodeFromStr s with
  | some c => RunResult.ok c
  | none => RunResult.panicked

/-- C1: the claim asserts that restoring the file produced by persist yields
a cache equal to the original; in the code `StoreExt::load` is `todo!()`, so
for every snapshot text (in particular the one `store` produced) the call
panics and never returns any cache at all, let alone an equal one. -/
theorem cacheLoad_never_yields_cache :
    ∀ (file : String) (m : Cache),
      cacheLoad file = RunResult.panicked ∧ cacheLoad file ≠ RunResult.ok m := by
  intro file m
  exact ⟨rfl, by simp [cacheLoad]⟩

/-- C2: the claim asserts that a malformed snapshot makes restore return an
error result to the caller; in the code `StoreExt::load` is `todo!()`, so on
a malformed snapshot the call panics (a process abort), returning neither an
error result nor a cache. -/
theorem cacheLoad_malformed_aborts :
    cacheLoad "this is not a cache snapshot" = RunResult.panicked ∧
      (∀ msg, cacheLoad "this is not a cache snapshot" ≠ RunResult.err msg) ∧
      (∀ m : Cache, cacheLoad "this is not a cache snapshot" ≠ RunResult.ok m) :=
  ⟨rfl, fun _ => by simp [cacheLoad], fun _ => by simp [cacheLoad]⟩

/-- C3 counterexample: the hash does not feed exactly the fields of the
equality projection for every variant. Two Parse values with the same input
string but different secondary parse errors have different equality
projections (they are unequal, being of the same variant), yet the data each
feeds to the hasher is identical, because the hash feeds only the constant
type of the secondary error where equality compares its value. -/
theorem parse_hash_input_coarser_than_eq :
    ErrorKind.hashInput (ErrorKind.parse "x" (UrlParseErr.emptyHost, none))
        = ErrorKind.hashInput (ErrorKind.parse "x" (UrlParseErr.invalidPort, none)) ∧
      ErrorKind.beq (ErrorKind.parse "x" (UrlParseErr.emptyHost, none))
        (ErrorKind.parse "x" (UrlParseErr.invalidPort, none)) = false :=
  ⟨rfl, by decide⟩

/-- C3 amended: equal Error Kind values feed equal data to the hasher (so
`a == b` implies `hash(a) == hash(b)`), and malformed-header values are all
mutually equal with identical hash input; but the hash input is not exactly
the equality projection for every variant — for Parse the hash feeds only
the (constant) type of the secondary error while equality compares its
value. -/
theorem errorKind_eq_implies_hash_eq :
    (∀ a b : ErrorKind, ErrorKind.beq a b = true → a.hashInput = b.hashInput) ∧
      (∀ u v : Unit,
        ErrorKind.beq (ErrorKind.header u) (ErrorKind.header v) = true ∧
          ErrorKind.hashInput (ErrorKind.header u)
            = ErrorKind.hashInput (ErrorKind.header v)) := by
  constructor
  · intro a b h
    cases a <;> cases b <;>
      simp_all [ErrorKind.beq, ErrorKind.hashInput, patternErrToString]
  · intro u v
    exact ⟨rfl, rfl⟩

/-- C3 witness: the equality-implies-hash-equality direction at a concrete
pair of equal Client values. -/
theorem errorKind_eq_implies_hash_eq_witness :
    ErrorKind.beq (ErrorKind.client "connection refused" (some 503))
        (ErrorKind.client "connection refused" (some 503)) = true ∧
      ErrorKind.hashInput (ErrorKind.client "connection refused" (some 503))
        = ErrorKind.hashInput (ErrorKind.client "connection refused" (some 503)) :=
  ⟨by decide,
    errorKind_eq_implies_hash_eq.1 _ _ (by decide)⟩

/-- C4: the claim asserts that every Error Kind value equals itself and that
same-variant values without comparable payloads (malformed-header,
missing-credential, missing-host) are always equal; in the code the equality
match has no arm for MissingHost (or for Base, Encoding, and six more
variants), so those fall through to the catch-all `false` and are unequal
even to themselves, although malformed-header and the missing-token variant
do compare equal as claimed and `impl Eq` asserts reflexivity. -/
theorem missingHost_not_equal_to_itself :
    ErrorKind.beq ErrorKind.missingHost ErrorKind.missingHost = false ∧
      ErrorKind.beq (ErrorKind.base "a" "b") (ErrorKind.base "a" "b") = false ∧
      ErrorKind.beq (ErrorKind.header ()) (ErrorKind.header ()) = true ∧
      ErrorKind.beq ErrorKind.missingGitHubToken ErrorKind.missingGitHubToken
        = true :=
  ⟨rfl, by decide, rfl, rfl⟩

/-- C5: whenever an accepted-codes set is configured and contains the
response's status code, classification returns Ok with that code, whatever
the code's HTTP range. -/
theorem status_new_accepted_wins :
    ∀ (response : Response) (accepted : List Nat),
      accepted.contains response.status = true →
      Status.new response (some accepted) = Status.ok response.status := by
  intro response accepted h
  have hmem : response.status ∈ accepted := by simpa using h
  simp [Status.new, hmem]

/-- C5 witness: a response with status 404 and accepted set containing 404
classifies as Ok(404). -/
theorem status_new_accepted_wins_witness :
    List.contains [404] (404 : Nat) = true ∧
      Status.new ⟨404⟩ (some [404]) = Status.ok 404 :=
  ⟨by decide, status_new_accepted_wins ⟨404⟩ [404] (by decide)⟩

/-- C6: a transport failure flagged as a timeout with no attached status
code classifies as Timeout with no code, and the display text of that
verdict is exactly "Timeout". -/
theorem timeout_without_status :
    ∀ e : ReqwestErr, e.isTimeout = true → e.status = none →
      Status.fromReqwestErr e = Status.timeout none ∧
        Status.display (Status.timeout none) = "Timeout" := by
  intro e h1 h2
  refine ⟨?_, rfl⟩
  simp [Status.fromReqwestErr, h1, h2]

/-- C6 witness: a concrete timeout failure without a status code. -/
theorem timeout_without_status_witness :
    Status.fromReqwestErr ⟨true, false, none, "operation timed out"⟩
        = Status.timeout none ∧
      Status.display (Status.timeout none) = "Timeout" :=
  timeout_without_status ⟨true, false, none, "operation timed out"⟩ rfl rfl

/-- C7 counterexample: the excluded and unsupported tags differ, yet their
icons are the same glyph "?", so the seven tags do not get pairwise distinct
glyphs. -/
theorem icon_shared_between_tags :
    Status.tagIdx Status.excluded
        ≠ Status.tagIdx (Status.unsupported ErrorKind.missingHost) ∧
      Status.icon Status.excluded
        = Status.icon (Status.unsupported ErrorKind.missingHost) :=
  ⟨by decide, rfl⟩

/-- C7 amended: the icon depends only on the tag; success, redirected,
error, and timeout get pairwise distinct glyphs, each distinct from "?",
while excluded, unsupported, and unknown all share the glyph "?". -/
theorem icon_assignment :
    ∀ (c1 c2 c3 : Nat) (o : Option Nat) (e1 e2 : ErrorKind),
      Status.icon (Status.ok c1) = ICON_OK ∧
        Status.icon (Status.redirected c2) = ICON_REDIRECTED ∧
        Status.icon (Status.error e1) = ICON_ERROR ∧
        Status.icon (Status.timeout o) = ICON_TIMEOUT ∧
        Status.icon Status.excluded = "?" ∧
        Status.icon (Status.unsupported e2) = "?" ∧
        Status.icon (Status.unknownStatusCode c3) = "?" ∧
        ICON_OK ≠ ICON_REDIRECTED ∧ ICON_OK ≠ ICON_ERROR ∧
        ICON_OK ≠ ICON_TIMEOUT ∧ ICON_OK ≠ "?" ∧
        ICON_REDIRECTED ≠ ICON_ERROR ∧ ICON_REDIRECTED ≠ ICON_TIMEOUT ∧
        ICON_REDIRECTED ≠ "?" ∧ ICON_ERROR ≠ ICON_TIMEOUT ∧
        ICON_ERROR ≠ "?" ∧ ICON_TIMEOUT ≠ "?" := by
  intro c1 c2 c3 o e1 e2
  refine ⟨rfl, rfl, rfl, rfl, rfl, rfl, rfl, ?_, ?_, ?_, ?_, ?_, ?_, ?_, ?_, ?_, ?_⟩
    <;> decide

/-- C8: record returns the previously stored verdict (none when absent), and
afterwards lookup returns the recorded verdict, also after records for other
identifiers. -/
theorem record_lookup_contract :
    ∀ (m : Cache) (i : String) (v : Status),
      (cacheRecord m i v).1 = cacheLookup m i ∧
        cacheLookup (cacheRecord m i v).2 i = some v ∧
        ∀ (j : String) (w : Status), j ≠ i →
          cacheLookup (cacheRecord (cacheRecord m i v).2 j w).2 i = some v := by
  intro m i v
  refine ⟨rfl, ?_, ?_⟩
  · simp [cacheLookup, cacheRecord, List.find?]
  · intro j w h
    simp [cacheLookup, cacheRecord, List.find?, h]

/-- C8 witness: the contract at a concrete cache, identifier, and verdict,
with a subsequent record for a different identifier. -/
theorem record_lookup_contract_witness :
    (cacheRecord [] "https://example.com/" (Status.ok 200)).1 = none ∧
      cacheLookup (cacheRecord [] "https://example.com/" (Status.ok 200)).2
          "https://example.com/" = some (Status.ok 200) ∧
      cacheLookup
          (cacheRecord (cacheRecord [] "https://example.com/" (Status.ok 200)).2
            "https://other.example/" Status.excluded).2
          "https://example.com/" = some (Status.ok 200) := by
  obtain ⟨h1, h2, h3⟩ :=
    record_lookup_contract [] "https://example.com/" (Status.ok 200)
  exact ⟨h1, h2, h3 "https://other.example/" Status.excluded (by decide)⟩

/-- C9: deserializing a serialized I/O Error Kind always yields no path and
the categorical kind Other, so serialize-then-deserialize of an I/O value
carrying a path or a non-Other kind produces a value unequal to the
original. -/
theorem io_roundtrip_loses_path_and_kind :
    ∀ (p : Option String) (e : IoErr),
      (ioErrorDeserialize (ioErrorSerialize p e)).1 = none ∧
        (ioErrorDeserialize (ioErrorSerialize p e)).2.kind = IoErrKind.other ∧
        (p ≠ none ∨ e.kind ≠ IoErrKind.other →
          ErrorKind.beq (ErrorKind.io p e)
              (ErrorKind.io (ioErrorDeserialize (ioErrorSerialize p e)).1
                (ioErrorDeserialize (ioErrorSerialize p e)).2) = false) := by
  intro p e
  refine ⟨rfl, rfl, ?_⟩
  intro h
  rcases h with h | h <;>
    simp [ErrorKind.beq, ioErrorSerialize, ioErrorDeserialize, h]

/-- C9 witness: a concrete I/O Error Kind with a path and kind NotFound does
not survive the round trip. -/
theorem io_roundtrip_witness :
    (ioErrorDeserialize
          (ioErrorSerialize (some "/etc/hosts")
            ⟨IoErrKind.notFound, "No such file"⟩)).1 = none ∧
      ErrorKind.beq
          (ErrorKind.io (some "/etc/hosts") ⟨IoErrKind.notFound, "No such file"⟩)
          (ErrorKind.io none ⟨IoErrKind.other, "No such file"⟩) = false :=
  ⟨(io_roundtrip_loses_path_and_kind (some "/etc/hosts")
      ⟨IoErrKind.notFound, "No such file"⟩).1,
    (io_roundtrip_loses_path_and_kind (some "/etc/hosts")
        ⟨IoErrKind.notFound, "No such file"⟩).2.2 (Or.inl (by simp))⟩

/-- C10: the conversion from the deserialized status-code string wrapper
unwraps the parse: when the stored string parses as a valid HTTP status code
it returns that code, and for any other string it panics instead of
returning an error. -/
theorem statusCode_unwrap_behavior :
    ∀ s : String,
      (∀ c, statusCodeFromStr s = some c → statusCodeFromRef s = RunResult.ok c) ∧
        (statusCodeFromStr s = none → statusCodeFromRef s = RunResult.panicked) := by
  intro s
  constructor
  · intro c h
    simp [statusCodeFromRef, h]
  · intro h
    simp [statusCodeFromRef, h]

/-- C10 witness: "404" parses and converts, "oops" does not parse and the
conversion panics. -/
theorem statusCode_unwrap_witness :
    statusCodeFromStr "404" = some 404 ∧
      statusCodeFromRef "404" = RunResult.ok 404 ∧
      statusCodeFromStr "oops" = none ∧
      statusCodeFromRef "oops" = RunResult.panicked :=
  ⟨by decide, (statusCode_unwrap_behavior "404").1 404 (by decide),
    by decide, (statusCode_unwrap_behavior "oops").2 (by decide)⟩
